import Mathlib

set_option maxRecDepth 10000

/-!
Verification of the subdomain-enumeration core: a shallow embedding of
`generator.py` (candidate generation) and `scanner.py` (DNS/HTTPS scanning),
with theorems checking the design document's properties against the code.

Python strings are modelled as Lean `String` (a list of code points);
Python `set` values are modelled as `Finset String`.  Network behaviour
(DNS answers, HTTPS responses) is modelled by explicit oracles passed as
function arguments, since the code treats the network as an external service.
-/

/-- Models Python `s.startswith(pre)` on code points. -/
def pyStartswith (s pre : String) : Bool :=
  pre.data.isPrefixOf s.data

/-- Models the Python slice `s[n:]` on code points. -/
def pyDrop (s : String) (n : Nat) : String :=
  ⟨s.data.drop n⟩

/-- Models Python `sep.join(parts)`. -/
def pyJoin (sep : String) : List String → String
  | [] => ""
  | [x] => x
  | x :: y :: rest => x ++ sep ++ pyJoin sep (y :: rest)

/-- Models Python `s.replace('.', '-')` (single-character replacement). -/
def dotsToDashes (s : String) : String :=
  ⟨s.data.map (fun c => if c = '.' then '-' else c)⟩

/-- Models the Python format `f"{i:02d}"` for the small naturals used here. -/
def fmt02 (i : Nat) : String :=
  if i < 10 then "0" ++ toString i else toString i

/-! ## Scanner model (`scanner.py`)

`SubdomainScanner.__init__` stores a concurrency bound and a timeout; neither
is validated.  `scan_subdomains` builds `asyncio.Semaphore(self.concurrency)`
(which raises `ValueError` exactly when the value is negative) before creating
any per-candidate task, runs `check_subdomain` per candidate under the
semaphore via `asyncio.gather(..., return_exceptions=True)`, and returns the
pair `(https_alive, dns_resolved)`.  With concurrency `0` and a non-empty
candidate set every task blocks on the semaphore forever and the call never
returns; this non-completion is modelled by the result `Except.ok none`. -/

/-- The scanner's mutable attributes set in `__init__` (the resolver object
only mirrors `timeout` and performs network I/O, which the oracle absorbs). -/
structure SubdomainScanner where
  concurrency : Int
  timeout : Int
deriving DecidableEq, Repr

/-- Outcome of one intercepted call in the per-candidate protocol: the call
returns a value, or it raises an exception that escapes `check_subdomain`
(for `resolve_dns` the `AttributeError` raised while evaluating its broken
`except` tuple, or a non-`Exception` such as a cancellation; for
`check_https` any exception outside its `except` tuple). -/
inductive StepResult (α : Type) where
  | ok (value : α)
  | raises
deriving DecidableEq, Repr

/-- A network oracle: per candidate, the observable outcome of
`self.resolve_dns(subdomain)` and of `self.check_https(subdomain)`. -/
def NetOracle : Type := String → StepResult Bool × StepResult Bool

/-- Models the inner coroutine `check_subdomain` of `scan_subdomains`
(lines 82-89): result is (added to `dns_resolved`, added to `https_alive`).
HTTPS is probed only when DNS resolution returned `True`, and an exception
escaping the HTTPS probe happens after the candidate was already added to
`dns_resolved`. -/
def check_subdomain (dnsRes httpsRes : StepResult Bool) : Bool × Bool :=
  match dnsRes with
  | .raises => (false, false)
  | .ok false => (false, false)
  | .ok true =>
    match httpsRes with
    | .raises => (true, false)
    | .ok b => (true, b)

/-- Candidates added to the `dns_resolved` set during a scan. -/
def dns_resolvedSet (net : NetOracle) (subdomains : Finset String) : Finset String :=
  subdomains.filter (fun c => (check_subdomain (net c).1 (net c).2).1 = true)

/-- Candidates added to the `https_alive` set during a scan. -/
def https_aliveSet (net : NetOracle) (subdomains : Finset String) : Finset String :=
  subdomains.filter (fun c => (check_subdomain (net c).1 (net c).2).2 = true)

/-- The result of one `scan_subdomains` call.  `Except.error` models the
`ValueError` raised by `asyncio.Semaphore(self.concurrency)` for a negative
value (line 80, before any per-candidate task is created), `Except.ok none`
models the call never returning (with concurrency `0` and a non-empty
candidate set every task blocks on the semaphore forever), and the source's
final line `return https_alive, dns_resolved` fixes the order of the result
pair. -/
def scan_result (self : SubdomainScanner) (net : NetOracle)
    (subdomains : Finset String) :
    Except String (Option (Finset String × Finset String)) :=
  if self.concurrency < 0 then
    Except.error "ValueError: Semaphore initial value must be >= 0"
  else if self.concurrency = 0 ∧ subdomains ≠ ∅ then
    Except.ok none
  else
    Except.ok (some (https_aliveSet net subdomains, dns_resolvedSet net subdomains))

/-- Models `SubdomainScanner.scan_subdomains` (lines 72-95).  The returned
pair is `(result, scanner state afterwards)`; `scan_subdomains` itself never
assigns to any attribute of `self`. -/
def scan_subdomains (self : SubdomainScanner) (net : NetOracle)
    (subdomains : Finset String) :
    Except String (Option (Finset String × Finset String)) × SubdomainScanner :=
  (scan_result self net subdomains, self)

/-- Models `SubdomainScanner.quick_scan` (lines 97-102): assigns
`self.concurrency = 20`, then delegates to `scan_subdomains`. -/
def quick_scan (self : SubdomainScanner) (net : NetOracle)
    (subdomains : Finset String) :
    Except String (Option (Finset String × Finset String)) × SubdomainScanner :=
  scan_subdomains { self with concurrency := 20 } net subdomains

/-- Models `get_scanner_for_mode` (lines 105-114). -/
def get_scanner_for_mode (mode : String) : SubdomainScanner :=
  if mode = "normal" then ⟨20, 5⟩
  else if mode = "medium" then ⟨30, 8⟩
  else ⟨50, 10⟩

/-- Classifies a scan result as the configuration `ValueError`. -/
def isConfigErrorResult :
    Except String (Option (Finset String × Finset String)) → Bool
  | Except.error _ => true
  | _ => false

/-! ### DNS resolution model (`resolve_dns`, lines 24-42)

A single lookup (`self.resolver.resolve(subdomain, rtype)`) either returns an
answer, raises an exception that is an instance of `Exception` (every
resolver error is a `DNSException`, a subclass of `Exception`), or raises a
`BaseException` outside `Exception` (e.g. task cancellation).  Python
evaluates the tuple of an `except` clause only once the `try` body has
raised, and the tuple at lines 32-36 names `dns.asyncresolver.Timeout` —
but the `dns.asyncresolver` module re-exports only `NXDOMAIN`, `NoAnswer`,
`NotAbsolute` and `NoRootSOA` from `dns.resolver` and has no `Timeout`
attribute, so evaluating the tuple itself raises `AttributeError`.  Hence
whenever the A-record lookup fails, for any reason, `resolve_dns` propagates
`AttributeError` to its caller; the CNAME fallback (lines 37-42) and its
`return False` path are unreachable dead code. -/

/-- Observable outcome of one `resolver.resolve` call. -/
inductive LookupOutcome where
  | found
  | raisesExc
  | raisesNonExc
deriving DecidableEq, Repr

/-- Models `SubdomainScanner.resolve_dns`, given the outcomes the resolver
would produce for the A-record lookup and for the CNAME lookup.
`Except.error` models an exception propagating to the caller: if the
A-record lookup raises anything at all, evaluating the `except` tuple
raises `AttributeError` (no `Timeout` attribute on `dns.asyncresolver`),
so the CNAME outcome is never consulted. -/
def resolve_dns (aRecord cnameRecord : LookupOutcome) : Except String Bool :=
  match aRecord with
  | .found => Except.ok true
  | _ =>
    Except.error
      "AttributeError: module dns.asyncresolver has no attribute Timeout"

/-! ## Generator model (`generator.py`)

`SubdomainGenerator.generate_candidates(domain, mode)` strips one leading
`www.`, then adds candidates to a `set`; every single `candidates.add` in the
source has the shape `f"{p}.{domain}"` for some label string `p`, so the
function is modelled as the set of `p ++ "." ++ domain` over the list of
label strings each `add` contributes, in source order (set semantics make
order and duplicates irrelevant). -/

/-- `COMMON_PREFIXES` class attribute (generator.py lines 14-30). -/
def COMMON_PREFIXES : List String :=
  ["www", "mail", "ftp", "smtp", "pop", "imap", "webmail",
   "admin", "administrator", "login", "dashboard", "panel",
   "api", "api2", "api3", "vpn", "remote", "ssh",
   "dev", "development", "staging", "test", "qa",
   "blog", "news", "forum", "support", "help", "docs",
   "app", "apps", "application", "portal", "hub",
   "static", "assets", "cdn", "media", "images", "img",
   "shop", "store", "ecommerce", "payment", "pay",
   "m", "mobile", "wap", "i", "iphone",
   "secure", "ssl", "safe", "private",
   "cpanel", "whm", "webdisk", "webhost",
   "ns1", "ns2", "ns3", "dns", "mx", "mx1", "mx2",
   "git", "svn", "repo", "code",
   "status", "monitor", "monitoring", "metrics",
   "db", "database", "sql", "mysql", "postgres"]

/-- `ENVIRONMENTS` class attribute (line 33). -/
def ENVIRONMENTS : List String :=
  ["dev", "test", "staging", "prod", "production", "uat", "qa"]

/-- `GEO_PREFIXES` class attribute (line 36). -/
def GEO_PREFIXES : List String :=
  ["us", "uk", "eu", "de", "fr", "jp", "sg", "au", "in"]

/-- Labels of the `base_candidates` list (lines 57-76). -/
def basePrefixLabels : List String :=
  ["www", "mail", "api", "admin", "blog", "dev", "staging", "test",
   "mobile", "static", "cdn", "portal", "app", "secure", "vpn", "m",
   "old", "new"]

/-- Labels added by the NORMAL-mode block (lines 85-95). -/
def normalLabels : List String :=
  (ENVIRONMENTS.take 3).flatMap (fun env => [env, env ++ "-web"])
  ++ ["1", "2", "3", "01", "02"].flatMap (fun num =>
       ["web" ++ num, "app" ++ num, "api" ++ num])

/-- Labels added by the MEDIUM-mode block (lines 98-117). -/
def mediumLabels : List String :=
  ENVIRONMENTS.flatMap (fun env =>
    [env, env ++ "-web", "web-" ++ env, env ++ "-app"])
  ++ GEO_PREFIXES.flatMap (fun geo =>
       [geo, geo ++ "-web", "www-" ++ geo])
  ++ (List.range' 1 10).flatMap (fun i =>
       ["web" ++ fmt02 i, "app" ++ fmt02 i, "api" ++ fmt02 i,
        "server" ++ fmt02 i])

/-- Labels added by the domain-independent part of the ULTIMATE-mode block
(lines 122-145). -/
def ultimateFixedLabels : List String :=
  ENVIRONMENTS.flatMap (fun env =>
    ["", "www-", "web-", "app-", "api-"].flatMap (fun pre =>
      (pre ++ env) :: (["", "1", "2", "3"].map (fun num => pre ++ env ++ num))))
  ++ GEO_PREFIXES.flatMap (fun geo =>
       (ENVIRONMENTS.take 4).flatMap (fun env =>
         [geo ++ "-" ++ env, env ++ "-" ++ geo]))
  ++ ["app", "web", "api", "service"].flatMap (fun p1 =>
       (ENVIRONMENTS.take 3).flatMap (fun p2 =>
         (p1 ++ "-" ++ p2) :: (["", "1", "2"].map (fun num =>
           p1 ++ num ++ "-" ++ p2))))
  ++ (List.range' 1 20).flatMap (fun i =>
       ["web", "app", "api", "server", "node", "host"].flatMap (fun p =>
         [p ++ fmt02 i, p ++ "-" ++ fmt02 i]))

/-- Labels of the `special_patterns` list (lines 148-155); one label depends
on the (stripped) domain. -/
def specialLabels (domain : String) : List String :=
  ["alpha", "beta", "gamma", "prod-" ++ dotsToDashes domain,
   "internal", "external", "legacy", "modern",
   "cloud", "aws", "azure", "office", "home", "remote"]

/-- `common_words` of the word-combination layer (line 161). -/
def common_words : List String :=
  ["admin", "api", "web", "app", "dev", "test"]

/-- All ways of inserting an element into a list (helper for
`listPermutations`). -/
def insertEverywhere (a : α) : List α → List (List α)
  | [] => [[a]]
  | x :: xs => (a :: x :: xs) :: (insertEverywhere a xs).map (x :: ·)

/-- Models the collection produced by `itertools.permutations` (as a list;
order of enumeration is irrelevant because results go into a set). -/
def listPermutations : List α → List (List α)
  | [] => [[]]
  | x :: xs => (listPermutations xs).flatMap (insertEverywhere x)

/-- Models the collection produced by `itertools.combinations(l, n)`:
sublists of `l` of length `n`, in order. -/
def listCombinations : Nat → List α → List (List α)
  | 0, _ => [[]]
  | _ + 1, [] => []
  | n + 1, x :: xs =>
    ((listCombinations n xs).map (x :: ·)) ++ listCombinations (n + 1) xs

/-- Labels added by the word-combination layer (lines 159-173): hyphen-joined
permutations of combinations of `common_words`, sizes `2` up to the
mode-dependent maximum, with MEDIUM keeping only arrangements of length at
most 2. -/
def comboLabels (mode : String) : List String :=
  if mode = "medium" ∨ mode = "ultimate" then
    let maxCombinations : Nat := if mode = "medium" then 2 else 3
    (List.range' 2 (min (maxCombinations + 1) (common_words.length + 1) - 2)).flatMap
      (fun i => (listCombinations i common_words).flatMap
        (fun combo => (listPermutations combo).filterMap
          (fun perm =>
            if mode = "ultimate" ∨ perm.length ≤ 2 then
              some (pyJoin "-" perm)
            else none)))
  else []

/-- All label strings contributed by `candidates.add` calls for a (stripped)
domain and a mode, in source order. -/
def allLabels (domain mode : String) : List String :=
  basePrefixLabels ++ COMMON_PREFIXES
  ++ (if mode = "normal" then normalLabels
      else if mode = "medium" then mediumLabels
      else if mode = "ultimate" then ultimateFixedLabels ++ specialLabels domain
      else [])
  ++ comboLabels mode

/-- The `www.`-stripping step of `generate_candidates` (lines 53-54). -/
def stripWww (domain : String) : String :=
  if pyStartswith domain "www." then pyDrop domain 4 else domain

/-- The candidate strings of `generate_candidates`, as a list. -/
def generateList (domain mode : String) : List String :=
  (allLabels (stripWww domain) mode).map (fun p => p ++ "." ++ stripWww domain)

/-- Models `SubdomainGenerator.generate_candidates` (lines 46-175): the
returned Python `set`. -/
def generate_candidates (domain : String) (mode : String := "normal") :
    Finset String :=
  (generateList domain mode).toFinset

/-- Models the regular expression `^[a-z0-9.-]+\.[a-z]{2,}$` of the Domain
invariant (also used by `validate_domain` in utils.py line 30): every
character is in the class `[a-z0-9.-]`, and the string splits at its last
dot into a non-empty prefix and a suffix of at least two lowercase
letters. -/
def validDomain (s : String) : Bool :=
  s.data.all (fun c => ('a' ≤ c ∧ c ≤ 'z') ∨ ('0' ≤ c ∧ c ≤ '9')
                        ∨ c = '.' ∨ c = '-')
  && (let tld := s.data.reverse.takeWhile (fun c => c ≠ '.')
      let rest := s.data.reverse.dropWhile (fun c => c ≠ '.')
      2 ≤ tld.length && tld.all (fun c => 'a' ≤ c ∧ c ≤ 'z')
        && 2 ≤ rest.length)

/-- A network oracle with every candidate resolving and answering HTTPS. -/
def netAllAlive : NetOracle := fun _ => (StepResult.ok true, StepResult.ok true)

/-- A network oracle with every candidate resolving but failing HTTPS. -/
def netDnsOnly : NetOracle := fun _ => (StepResult.ok true, StepResult.ok false)

/-- A network oracle whose checks raise on `b.example.com` and succeed
everywhere else. -/
def netFaulty : NetOracle := fun x =>
  if x = "b.example.com" then (StepResult.raises, StepResult.raises)
  else (StepResult.ok true, StepResult.ok true)

/-! ## Helper lemmas -/

/-- Appending strings appends their code-point lists. -/
theorem str_data_append (a b : String) : (a ++ b).data = a.data ++ b.data := by
  cases a
  cases b
  rfl

/-- A label of the form `prod-…` is never the empty string. -/
theorem prodLabel_ne_empty (d : String) : "prod-" ++ d ≠ "" := by
  intro h
  have h2 : ("prod-" ++ d).data = ("" : String).data := congrArg String.data h
  have h3 : ("prod-" ++ d).data = 'p' :: 'r' :: 'o' :: 'd' :: '-' :: d.data := rfl
  rw [h3] at h2
  simp at h2

/-- A candidate was added to `https_alive` only if it was added to
`dns_resolved` first: the HTTPS probe runs inside the DNS-success branch. -/
theorem check_subdomain_snd_imp_fst (a b : StepResult Bool)
    (h : (check_subdomain a b).2 = true) : (check_subdomain a b).1 = true := by
  cases a with
  | raises => simp [check_subdomain] at h
  | ok v =>
    cases v
    · simp [check_subdomain] at h
    · cases b <;> simp [check_subdomain]

/-- With a positive concurrency bound, `scan_subdomains` completes and
returns the pair `(https_alive, dns_resolved)`. -/
theorem scan_result_eq_of_pos (s : SubdomainScanner) (net : NetOracle)
    (subs : Finset String) (h : 0 < s.concurrency) :
    (scan_subdomains s net subs).1
      = Except.ok (some (https_aliveSet net subs, dns_resolvedSet net subs)) := by
  show scan_result s net subs = _
  unfold scan_result
  rw [if_neg (by omega), if_neg (by rintro ⟨h0, -⟩; omega)]

/-! ## Claims about the scanner -/

/-- C1: for every scan invocation (any scanner with a positive concurrency
bound, any network behaviour, any candidate set), every candidate placed in
`https_alive` is also placed in `dns_resolved`: the https-alive result set is
a subset of the dns-resolved result set. -/
theorem scan_httpsAlive_subset_dnsResolved (s : SubdomainScanner)
    (net : NetOracle) (subs : Finset String) (h : 0 < s.concurrency) :
    (scan_subdomains s net subs).1
      = Except.ok (some (https_aliveSet net subs, dns_resolvedSet net subs))
    ∧ https_aliveSet net subs ⊆ dns_resolvedSet net subs := by
  refine ⟨scan_result_eq_of_pos s net subs h, ?_⟩
  intro x hx
  simp only [https_aliveSet, Finset.mem_filter] at hx
  simp only [dns_resolvedSet, Finset.mem_filter]
  exact ⟨hx.1, check_subdomain_snd_imp_fst _ _ hx.2⟩

/-- Witness for C1 at a concrete scanner, oracle and candidate set. -/
theorem scan_httpsAlive_subset_dnsResolved_witness :
    (scan_subdomains ⟨1, 5⟩ netAllAlive {"a.example.com"}).1
      = Except.ok (some (https_aliveSet netAllAlive {"a.example.com"},
          dns_resolvedSet netAllAlive {"a.example.com"}))
    ∧ https_aliveSet netAllAlive {"a.example.com"}
        ⊆ dns_resolvedSet netAllAlive {"a.example.com"} :=
  scan_httpsAlive_subset_dnsResolved ⟨1, 5⟩ netAllAlive {"a.example.com"}
    (by decide)

/-- C2 counterexample: for a candidate that is DNS-resolved but not
HTTPS-alive, the first component of the returned pair is the empty
https-alive set, not the (non-empty) dns-resolved set — `scan_subdomains`
returns `(https_alive, dns_resolved)`, not `(dns_resolved, https_alive)`. -/
theorem scan_pair_order_counterexample :
    (scan_subdomains ⟨1, 5⟩ netDnsOnly {"a.example.com"}).1
      = Except.ok (some (∅, {"a.example.com"}))
    ∧ dns_resolvedSet netDnsOnly {"a.example.com"} = {"a.example.com"}
    ∧ (∅ : Finset String) ≠ {"a.example.com"} := by
  refine ⟨rfl, rfl, by decide⟩

/-- C2 amended: the scan operation returns the pair
`(httpsAlive, dnsResolved)` — https-alive first, dns-resolved second. -/
theorem scan_returns_https_then_dns (s : SubdomainScanner) (net : NetOracle)
    (subs : Finset String) (h : 0 < s.concurrency) :
    (scan_subdomains s net subs).1
      = Except.ok (some (https_aliveSet net subs, dns_resolvedSet net subs)) :=
  scan_result_eq_of_pos s net subs h

/-- Witness for the amended C2 at a concrete input. -/
theorem scan_returns_https_then_dns_witness :
    (scan_subdomains ⟨2, 8⟩ netDnsOnly {"x.example.com"}).1
      = Except.ok (some (https_aliveSet netDnsOnly {"x.example.com"},
          dns_resolvedSet netDnsOnly {"x.example.com"})) :=
  scan_returns_https_then_dns ⟨2, 8⟩ netDnsOnly {"x.example.com"} (by decide)

/-- C4 counterexample: with concurrency `0` (which is `≤ 0`) and a non-empty
candidate set, the call is not rejected with a configuration error — the
semaphore accepts the value `0` and the scan simply never completes. -/
theorem scan_zero_concurrency_not_rejected :
    (0 : Int) ≤ 0
    ∧ isConfigErrorResult
        (scan_subdomains ⟨0, 10⟩ netAllAlive {"a.example.com"}).1 = false
    ∧ (scan_subdomains ⟨0, 10⟩ netAllAlive {"a.example.com"}).1
        = Except.ok none := by
  refine ⟨le_refl 0, rfl, rfl⟩

/-- C4 amended: the scan fails with the configuration `ValueError` exactly
when the supplied concurrency is negative (raised by the semaphore
construction, before any per-candidate work); any positive concurrency (with
any timeout) is accepted and the scan completes.  Concurrency `0` is neither
rejected nor completed: the call blocks forever on non-empty input. -/
theorem scan_configuration_validation (s : SubdomainScanner) (net : NetOracle)
    (subs : Finset String) :
    (isConfigErrorResult (scan_subdomains s net subs).1 = true
      ↔ s.concurrency < 0)
    ∧ (0 < s.concurrency →
        (scan_subdomains s net subs).1
          = Except.ok (some (https_aliveSet net subs, dns_resolvedSet net subs))) := by
  constructor
  · show isConfigErrorResult (scan_result s net subs) = true ↔ _
    unfold scan_result
    by_cases hneg : s.concurrency < 0
    · rw [if_pos hneg]
      simp [isConfigErrorResult, hneg]
    · rw [if_neg hneg]
      by_cases hz : s.concurrency = 0 ∧ subs ≠ ∅
      · rw [if_pos hz]
        simp [isConfigErrorResult, hneg]
      · rw [if_neg hz]
        simp [isConfigErrorResult, hneg]
  · exact fun h => scan_result_eq_of_pos s net subs h

/-- Witness for the amended C4: a scanner with positive concurrency and
timeout is accepted. -/
theorem scan_configuration_validation_witness :
    (scan_subdomains ⟨3, 7⟩ netAllAlive ∅).1
      = Except.ok (some (https_aliveSet netAllAlive ∅,
          dns_resolvedSet netAllAlive ∅)) :=
  (scan_configuration_validation ⟨3, 7⟩ netAllAlive ∅).2 (by decide)

/-- C5: batch isolation.  If the check of candidate `f` raises an unexpected
exception (in `resolve_dns` or escaping `check_https`), the scan still
completes, and every other candidate's membership in both result sets is
exactly what it would be in a scan without `f` — no result is lost or
duplicated and the batch is not aborted (`asyncio.gather` is called with
`return_exceptions=True`). -/
theorem scan_batch_isolation (s : SubdomainScanner) (net : NetOracle)
    (subs : Finset String) (f c : String) (h : 0 < s.concurrency)
    (_hf : (net f).1 = StepResult.raises ∨ (net f).2 = StepResult.raises)
    (hc : c ≠ f) :
    (scan_subdomains s net subs).1
      = Except.ok (some (https_aliveSet net subs, dns_resolvedSet net subs))
    ∧ (scan_subdomains s net (subs.erase f)).1
      = Except.ok (some (https_aliveSet net (subs.erase f),
          dns_resolvedSet net (subs.erase f)))
    ∧ (c ∈ https_aliveSet net subs ↔ c ∈ https_aliveSet net (subs.erase f))
    ∧ (c ∈ dns_resolvedSet net subs ↔ c ∈ dns_resolvedSet net (subs.erase f)) := by
  refine ⟨scan_result_eq_of_pos s net subs h,
    scan_result_eq_of_pos s net (subs.erase f) h, ?_, ?_⟩ <;>
    simp [https_aliveSet, dns_resolvedSet, Finset.mem_filter, Finset.mem_erase, hc]

/-- Witness for C5: a two-candidate batch in which the checks of
`b.example.com` raise; membership of `a.example.com` is unaffected. -/
theorem scan_batch_isolation_witness :
    (scan_subdomains ⟨1, 5⟩ netFaulty {"a.example.com", "b.example.com"}).1
      = Except.ok (some (https_aliveSet netFaulty {"a.example.com", "b.example.com"},
          dns_resolvedSet netFaulty {"a.example.com", "b.example.com"}))
    ∧ (scan_subdomains ⟨1, 5⟩ netFaulty
        (({"a.example.com", "b.example.com"} : Finset String).erase "b.example.com")).1
      = Except.ok (some (https_aliveSet netFaulty
          (({"a.example.com", "b.example.com"} : Finset String).erase "b.example.com"),
          dns_resolvedSet netFaulty
          (({"a.example.com", "b.example.com"} : Finset String).erase "b.example.com")))
    ∧ ("a.example.com" ∈ https_aliveSet netFaulty {"a.example.com", "b.example.com"}
        ↔ "a.example.com" ∈ https_aliveSet netFaulty
            (({"a.example.com", "b.example.com"} : Finset String).erase "b.example.com"))
    ∧ ("a.example.com" ∈ dns_resolvedSet netFaulty {"a.example.com", "b.example.com"}
        ↔ "a.example.com" ∈ dns_resolvedSet netFaulty
            (({"a.example.com", "b.example.com"} : Finset String).erase "b.example.com")) :=
  scan_batch_isolation ⟨1, 5⟩ netFaulty {"a.example.com", "b.example.com"}
    "b.example.com" "a.example.com" (by decide) (Or.inl rfl) (by decide)

/-- C6: the code contradicts the claim.  When the A-record lookup raises a
resolver error, `resolve_dns` does not attempt the CNAME fallback and does
not return `False`: evaluating the `except` tuple raises `AttributeError`
(the `dns.asyncresolver` module has no `Timeout` attribute), which
propagates to the caller — even when the CNAME lookup would have
succeeded.  Only a successful A lookup returns at all. -/
theorem resolve_dns_propagates_on_failure :
    resolve_dns LookupOutcome.raisesExc LookupOutcome.found
      = Except.error
          "AttributeError: module dns.asyncresolver has no attribute Timeout"
    ∧ resolve_dns LookupOutcome.found LookupOutcome.raisesExc = Except.ok true :=
  ⟨rfl, rfl⟩

/-- C9 counterexample: the Ultimate-profile scanner is constructed with
concurrency `50`, but after `quick_scan` its concurrency attribute is `20` —
`quick_scan` mutates the configuration (`self.concurrency = 20`). -/
theorem quick_scan_mutates_concurrency :
    (get_scanner_for_mode "ultimate").concurrency = 50
    ∧ ((quick_scan (get_scanner_for_mode "ultimate") netAllAlive ∅).2).concurrency = 20
    ∧ (50 : Int) ≠ 20 := by
  refine ⟨rfl, rfl, by decide⟩

/-- C9 amended: `scan_subdomains` leaves both configuration fields unchanged,
and `quick_scan` preserves the timeout but overwrites the concurrency with
`20`. -/
theorem scan_configuration_frame (mode : String) (net : NetOracle)
    (subs : Finset String) :
    (scan_subdomains (get_scanner_for_mode mode) net subs).2
      = get_scanner_for_mode mode
    ∧ (quick_scan (get_scanner_for_mode mode) net subs).2.timeout
        = (get_scanner_for_mode mode).timeout
    ∧ (quick_scan (get_scanner_for_mode mode) net subs).2.concurrency = 20 :=
  ⟨rfl, rfl, rfl⟩

/-- C10: every mode string other than `"normal"` and `"medium"` — including
unrecognized tokens — yields the Ultimate-profile scanner with concurrency
`50` and timeout `10`; no mode string is rejected. -/
theorem get_scanner_for_mode_fallback (mode : String)
    (h1 : mode ≠ "normal") (h2 : mode ≠ "medium") :
    get_scanner_for_mode mode = ⟨50, 10⟩ := by
  unfold get_scanner_for_mode
  rw [if_neg h1, if_neg h2]

/-- Witness for C10 at an unrecognized mode string. -/
theorem get_scanner_for_mode_fallback_witness :
    get_scanner_for_mode "turbo" = ⟨50, 10⟩ :=
  get_scanner_for_mode_fallback "turbo" (by decide) (by decide)

/-! ## Claims about the generator -/

/-- Every label contributed by a `candidates.add` call is a non-empty
string. -/
theorem labels_ne_empty (d m : String) : ∀ p ∈ allLabels d m, p ≠ "" := by
  intro p hp
  simp only [allLabels, List.append_assoc, List.mem_append] at hp
  rcases hp with h | h | h | h
  · exact (by decide : ∀ x ∈ basePrefixLabels, x ≠ "") p h
  · exact (by decide : ∀ x ∈ COMMON_PREFIXES, x ≠ "") p h
  · by_cases h1 : m = "normal"
    · rw [h1] at h
      simp only [if_pos rfl] at h
      exact (by decide : ∀ x ∈ normalLabels, x ≠ "") p h
    · rw [if_neg h1] at h
      by_cases h2 : m = "medium"
      · rw [h2] at h
        simp only [if_pos rfl] at h
        exact (by decide : ∀ x ∈ mediumLabels, x ≠ "") p h
      · rw [if_neg h2] at h
        by_cases h3 : m = "ultimate"
        · rw [h3] at h
          simp only [if_pos rfl] at h
          rcases List.mem_append.mp h with h4 | h4
          · exact (by decide : ∀ x ∈ ultimateFixedLabels, x ≠ "") p h4
          · simp only [specialLabels, List.mem_cons, List.not_mem_nil,
              or_false] at h4
            rcases h4 with rfl | rfl | rfl | rfl | rfl | rfl | rfl | rfl
              | rfl | rfl | rfl | rfl | rfl | rfl
            all_goals first
              | decide
              | exact prodLabel_ne_empty _
        · rw [if_neg h3] at h
          simp at h
  · by_cases h1 : m = "medium"
    · rw [h1] at h
      exact (by decide : ∀ x ∈ comboLabels "medium", x ≠ "") p h
    · by_cases h2 : m = "ultimate"
      · rw [h2] at h
        exact (by decide : ∀ x ∈ comboLabels "ultimate", x ≠ "") p h
      · have hz : comboLabels m = [] := by
          simp [comboLabels, h1, h2]
        rw [hz] at h
        simp at h

/-- C3 counterexample: `"www.example.com"` satisfies the Domain invariant,
yet it is itself an element of its own candidate set (and its candidates end
in `.example.com`, not `.www.example.com`), because the generator strips the
leading `www.` before expansion. -/
theorem generate_www_domain_counterexample :
    validDomain "www.example.com" = true
    ∧ "www.example.com" ∈ generate_candidates "www.example.com" "normal" := by
  refine ⟨by decide, List.mem_toFinset.mpr (by decide)⟩

/-- C3 amended: for every domain `d` satisfying the Domain invariant that
does not carry a leading `www.`, and every mode, every generated candidate
is `p ++ "." ++ d` for a non-empty label `p` (a strict suffix ending in
`.` + `d`), and `d` itself is never a candidate. -/
theorem generate_candidates_strict_suffix (d m : String)
    (_hv : validDomain d = true) (hw : pyStartswith d "www." = false) :
    (∀ c ∈ generate_candidates d m, ∃ p : String, p ≠ "" ∧ c = p ++ "." ++ d)
    ∧ d ∉ generate_candidates d m := by
  have hstrip : stripWww d = d := by simp [stripWww, hw]
  constructor
  · intro c hc
    simp only [generate_candidates, List.mem_toFinset, generateList,
      hstrip] at hc
    obtain ⟨p, hp, rfl⟩ := List.mem_map.mp hc
    exact ⟨p, labels_ne_empty d m p hp, rfl⟩
  · intro hd
    simp only [generate_candidates, List.mem_toFinset, generateList,
      hstrip] at hd
    obtain ⟨p, hp, heq⟩ := List.mem_map.mp hd
    have hlen := congrArg (fun s : String => s.data.length) heq
    simp only [str_data_append, List.length_append] at hlen
    simp at hlen

/-- Witness for the amended C3 at a concrete valid domain. -/
theorem generate_candidates_strict_suffix_witness :
    validDomain "example.com" = true
    ∧ pyStartswith "example.com" "www." = false
    ∧ "example.com" ∉ generate_candidates "example.com" "normal" :=
  ⟨by decide, by decide,
    (generate_candidates_strict_suffix "example.com" "normal"
      (by decide) (by decide)).2⟩

/-- C7 counterexample: the generator strips only one leading `www.`, so for
`d = "www.example.com"` the sets `generate_candidates ("www." ++ d)` and
`generate_candidates d` differ — the first contains
`mail.www.example.com`, the second does not. -/
theorem generate_double_www_counterexample :
    generate_candidates "www.www.example.com" "normal"
      ≠ generate_candidates "www.example.com" "normal" := by
  intro h
  have h1 : "mail.www.example.com"
      ∈ generate_candidates "www.www.example.com" "normal" :=
    List.mem_toFinset.mpr (by decide)
  rw [h] at h1
  exact absurd (List.mem_toFinset.mp h1) (by decide)

/-- C7 amended: for every domain `d` that does not itself start with `www.`
and every mode, prepending `www.` to the input does not change the candidate
set — the leading `www.` is stripped before expansion. -/
theorem generate_strips_leading_www (d m : String)
    (h : pyStartswith d "www." = false) :
    generate_candidates ("www." ++ d) m = generate_candidates d m := by
  obtain ⟨ld⟩ := d
  have h1 : stripWww ("www." ++ String.mk ld) = String.mk ld := by
    simp [stripWww, pyStartswith, pyDrop, str_data_append]
  have h2 : stripWww (String.mk ld) = String.mk ld := by simp [stripWww, h]
  simp only [generate_candidates, generateList, h1, h2]

/-- Witness for the amended C7: the concrete scenario from the design
document, `generate("www.example.com", "normal") =
generate("example.com", "normal")`. -/
theorem generate_strips_leading_www_witness :
    pyStartswith "example.com" "www." = false
    ∧ generate_candidates ("www." ++ "example.com") "normal"
        = generate_candidates "example.com" "normal" :=
  ⟨by decide, generate_strips_leading_www "example.com" "normal" (by decide)⟩

/-- C8: `generate_candidates("example.com", "normal")` contains
`www.example.com`, `api.example.com` and `dev-web.example.com`, and does not
contain `example.com` itself. -/
theorem generate_example_normal_contents :
    "www.example.com" ∈ generate_candidates "example.com" "normal"
    ∧ "api.example.com" ∈ generate_candidates "example.com" "normal"
    ∧ "dev-web.example.com" ∈ generate_candidates "example.com" "normal"
    ∧ "example.com" ∉ generate_candidates "example.com" "normal" := by
  refine ⟨List.mem_toFinset.mpr (by decide), List.mem_toFinset.mpr (by decide),
    List.mem_toFinset.mpr (by decide),
    fun h => absurd (List.mem_toFinset.mp h) (by decide)⟩
